import Mathlib

/-!
Verification of the pumpe gate/proxy core: a shallow embedding of the Go
source (package gate, package service, package handler, package model) into
Lean 4, with theorems settling the specification claims about kinds, the
per-gate state machine, the in-flight counter, admission, the drain
protocol, header hygiene, the CONNECT error line, and the management
error-to-status mapping.
-/

set_option autoImplicit false

/-- Sentinel errors of the program, modelling the identity-comparable error
values: the `model.Error` constants of package gate and package model, plus
the two context errors (`context.Canceled`, `context.DeadlineExceeded`).
`other` stands for any further error value, carrying its message. -/
inductive GoErr where
  | canceled
  | deadlineExceeded
  | kindUnknown
  | kindNotSupported
  | notImplemented
  | setIsShutting
  | setIsWarmingUp
  | noRandomGate
  | gateNotFound
  | torMaxReached
  | warmupBadResponse
  | gateNotReady
  | gateIsRefreshing
  | invalidParam
  | invalidUUID
  | hijackingNotSupported
  | other (msg : String)
deriving DecidableEq, Repr

/-- Go: `type Kind string`. -/
abbrev Kind := String

/-- Go: `KindUnknown Kind = "unknown"`. -/
def KindUnknown : Kind := "unknown"

/-- Go: `KindDirect Kind = "direct"`. -/
def KindDirect : Kind := "direct"

/-- Go: `KindTor Kind = "tor"`. -/
def KindTor : Kind := "tor"

/-- Go: `KindWireGuard Kind = "wireguard"`. -/
def KindWireGuard : Kind := "wireguard"

/-- Go: `func (x Kind) String() string { return string(x) }`. -/
def Kind.toGoString (x : Kind) : String := x

/-- Go: `func ParseKind(raw string) (Kind, error)` — a switch on `Kind(raw)`
over the three supported kinds, defaulting to `(KindUnknown, ErrKindUnknown)`. -/
def ParseKind (raw : String) : Kind × Option GoErr :=
  if raw = KindDirect then (KindDirect, none)
  else if raw = KindTor then (KindTor, none)
  else if raw = KindWireGuard then (KindWireGuard, none)
  else (KindUnknown, some GoErr.kindUnknown)

/-- Escaping of one character as performed by `encoding/json` when
marshalling a Go string (default HTML-escaping encoder): quote, backslash,
the HTML characters and control characters are escaped, everything else is
emitted verbatim. -/
def jsonEscapeChar (c : Char) : String :=
  if c = Char.ofNat 34 then "\\\""
  else if c = Char.ofNat 92 then "\\\\"
  else if c = Char.ofNat 10 then "\\n"
  else if c = Char.ofNat 13 then "\\r"
  else if c = Char.ofNat 9 then "\\t"
  else if c = Char.ofNat 60 then "\\u003c"
  else if c = Char.ofNat 62 then "\\u003e"
  else if c = Char.ofNat 38 then "\\u0026"
  else if c.toNat < 32 then
    "\\u00" ++ String.mk [Nat.digitChar (c.toNat / 16), Nat.digitChar (c.toNat % 16)]
  else String.singleton c

/-- Model of `json.Marshal` applied to a Go string: the quoted, escaped form. -/
def jsonMarshalString (s : String) : String :=
  "\"" ++ String.join (s.data.map jsonEscapeChar) ++ "\""

/-- Value of a hexadecimal digit character, if it is one. -/
def hexDigitVal (c : Char) : Option Nat :=
  if c.isDigit then some (c.toNat - 48)
  else if 97 ≤ c.toNat ∧ c.toNat ≤ 102 then some (c.toNat - 87)
  else if 65 ≤ c.toNat ∧ c.toNat ≤ 70 then some (c.toNat - 55)
  else none

/-- Decoding of the body of a JSON string literal (the characters between
the quotes), handling the standard backslash escapes; models the relevant
part of `encoding/json` unmarshalling into a Go string. -/
def jsonUnescapeChars : List Char → Option (List Char)
  | [] => some []
  | c :: rest =>
    if c = Char.ofNat 92 then
      match rest with
      | [] => none
      | e :: rest2 =>
        if e = Char.ofNat 34 then (jsonUnescapeChars rest2).map (Char.ofNat 34 :: ·)
        else if e = Char.ofNat 92 then (jsonUnescapeChars rest2).map (Char.ofNat 92 :: ·)
        else if e = Char.ofNat 47 then (jsonUnescapeChars rest2).map (Char.ofNat 47 :: ·)
        else if e = 'n' then (jsonUnescapeChars rest2).map (Char.ofNat 10 :: ·)
        else if e = 'r' then (jsonUnescapeChars rest2).map (Char.ofNat 13 :: ·)
        else if e = 't' then (jsonUnescapeChars rest2).map (Char.ofNat 9 :: ·)
        else if e = 'b' then (jsonUnescapeChars rest2).map (Char.ofNat 8 :: ·)
        else if e = 'f' then (jsonUnescapeChars rest2).map (Char.ofNat 12 :: ·)
        else if e = 'u' then
          match rest2 with
          | h1 :: h2 :: h3 :: h4 :: rest3 =>
            match hexDigitVal h1, hexDigitVal h2, hexDigitVal h3, hexDigitVal h4 with
            | some v1, some v2, some v3, some v4 =>
              (jsonUnescapeChars rest3).map (Char.ofNat (v1 * 4096 + v2 * 256 + v3 * 16 + v4) :: ·)
            | _, _, _, _ => none
          | _ => none
        else none
    else if c = Char.ofNat 34 then none
    else (jsonUnescapeChars rest).map (c :: ·)

/-- Model of `json.Unmarshal` of a JSON document into a Go string: optional
surrounding whitespace, then a double-quoted string literal. Returns `none`
on any malformed input (Go returns a json error there). -/
def jsonUnmarshalString (raw : String) : Option String :=
  let cs := raw.data.dropWhile (fun c => c = ' ' ∨ c = Char.ofNat 9 ∨ c = Char.ofNat 10 ∨ c = Char.ofNat 13)
  let cs := (cs.reverse.dropWhile (fun c => c = ' ' ∨ c = Char.ofNat 9 ∨ c = Char.ofNat 10 ∨ c = Char.ofNat 13)).reverse
  match cs with
  | [] => none
  | q :: rest =>
    if q = Char.ofNat 34 then
      match rest.reverse with
      | [] => none
      | qe :: mid =>
        if qe = Char.ofNat 34 then (jsonUnescapeChars mid.reverse).map String.mk
        else none
    else none

/-- Go: `func (x Kind) MarshalJSON() ([]byte, error)` — marshals the string
form for the four known kinds and fails with `ErrKindUnknown` otherwise. -/
def Kind.marshalJSON (x : Kind) : Except GoErr String :=
  if x = KindUnknown ∨ x = KindDirect ∨ x = KindTor ∨ x = KindWireGuard then
    Except.ok (jsonMarshalString x)
  else Except.error GoErr.kindUnknown

/-- Go: `func (x *Kind) UnmarshalJSON(raw []byte) error` — unmarshals a JSON
string and then runs `ParseKind`, propagating its error. -/
def Kind.unmarshalJSON (raw : String) : Except GoErr Kind :=
  match jsonUnmarshalString raw with
  | none => Except.error (GoErr.other "json: cannot unmarshal into string")
  | some s =>
    match ParseKind s with
    | (_, some e) => Except.error e
    | (v, none) => Except.ok v

example : ParseKind "tor" = (KindTor, none) := by decide
example : Kind.marshalJSON KindUnknown = Except.ok "\"unknown\"" := rfl
example : Kind.unmarshalJSON "\"unknown\"" = Except.error GoErr.kindUnknown := rfl
example : Kind.unmarshalJSON "\"tor\"" = Except.ok KindTor := rfl

/-- Go: the three values of `type state uint32` — `stateReady` (the zero
value and initial state), `stateMaintenance`, `stateClosed`. -/
inductive GState where
  | ready
  | maintenance
  | closed
deriving DecidableEq, Repr

/-- Go: `gateState.toReady` — `CompareAndSwapUint32(&state, stateMaintenance, stateReady)`. -/
def gateState.toReady (s : GState) : GState :=
  if s = GState.maintenance then GState.ready else s

/-- Go: `gateState.toMaint` — `CompareAndSwapUint32(&state, stateReady, stateMaintenance)`. -/
def gateState.toMaint (s : GState) : GState :=
  if s = GState.ready then GState.maintenance else s

/-- Go: `gateState.toClosed` — CAS from `stateReady`, then (if that failed)
CAS from `stateMaintenance`. -/
def gateState.toClosed (s : GState) : GState :=
  if s = GState.ready then GState.closed
  else if s = GState.maintenance then GState.closed
  else s

/-- Go: `baseGate.toState(st)` — dispatches on the requested target state to
the corresponding guarded transition of the state cell. The first argument
is the requested target, the second the current state. -/
def baseGate.toState (st : GState) (s : GState) : GState :=
  match st with
  | GState.ready => gateState.toReady s
  | GState.maintenance => gateState.toMaint s
  | GState.closed => gateState.toClosed s

/-- Run a sequence of transition requests (each a requested target state)
against a state cell, via `baseGate.toState`. -/
def runTrans (l : List GState) (s : GState) : GState :=
  l.foldl (fun cur t => baseGate.toState t cur) s

/-- The legal transitions of the specification (§3): Ready→Maintenance,
Ready→Closed, Maintenance→Ready, Maintenance→Closed. -/
def legalPair (s t : GState) : Bool :=
  (s = GState.ready ∧ t = GState.maintenance) ∨
  (s = GState.ready ∧ t = GState.closed) ∨
  (s = GState.maintenance ∧ t = GState.ready) ∨
  (s = GState.maintenance ∧ t = GState.closed)

/-- Go: `gateState.addReq` — `nreq += 1` under the mutex, on a `uint64`
(wrap-around modelled with an explicit modulus). -/
def gateState.addReq (n : Nat) : Nat := (n + 1) % 2 ^ 64

/-- Go: `gateState.didReq` — decrement under the mutex, only when positive. -/
def gateState.didReq (n : Nat) : Nat := if n > 0 then n - 1 else n

/-- Go: `gateState.resetReqs` — `nreq = 0`. -/
def gateState.resetReqs (_ : Nat) : Nat := 0

/-- One counter operation: an `AddReq` or a `DidReq` call. -/
inductive ReqOp where
  | add
  | did
deriving DecidableEq, Repr

/-- Apply one counter operation. -/
def applyReqOp (n : Nat) (op : ReqOp) : Nat :=
  match op with
  | ReqOp.add => gateState.addReq n
  | ReqOp.did => gateState.didReq n

/-- Run an interleaving of `AddReq`/`DidReq` calls against the counter. -/
def runReqOps (l : List ReqOp) (n : Nat) : Nat :=
  l.foldl applyReqOp n

/-- Number of `AddReq` calls in an interleaving. -/
def countAdds (l : List ReqOp) : Nat :=
  (l.filter (fun op => op = ReqOp.add)).length

example : runTrans [GState.maintenance, GState.ready] GState.ready = GState.ready := by decide
example : runTrans [GState.closed, GState.ready] GState.ready = GState.closed := by decide
example : runReqOps [ReqOp.add, ReqOp.did, ReqOp.did, ReqOp.add] 0 = 1 := by decide

/-- Go `net/textproto`: a byte valid in a MIME header key (the RFC 7230
token characters). -/
def validHeaderFieldByte (c : Char) : Bool :=
  (48 ≤ c.toNat ∧ c.toNat ≤ 57) ∨
  (65 ≤ c.toNat ∧ c.toNat ≤ 90) ∨
  (97 ≤ c.toNat ∧ c.toNat ≤ 122) ∨
  c.toNat ∈ [33, 35, 36, 37, 38, 39, 42, 43, 45, 46, 94, 95, 96, 124, 126]

/-- Canonicalisation pass of `textproto.CanonicalMIMEHeaderKey`: uppercase
a letter that starts the key or follows a hyphen, lowercase the rest. -/
def canonChars : Bool → List Char → List Char
  | _, [] => []
  | upper, c :: rest =>
    let c2 := if upper ∧ 97 ≤ c.toNat ∧ c.toNat ≤ 122 then Char.ofNat (c.toNat - 32)
      else if ¬ upper ∧ 65 ≤ c.toNat ∧ c.toNat ≤ 90 then Char.ofNat (c.toNat + 32)
      else c
    c2 :: canonChars (c2 = Char.ofNat 45) rest

/-- Go `textproto.CanonicalMIMEHeaderKey`: returns the argument unchanged
if any byte is not a valid header field byte, otherwise canonicalises it. -/
def canonicalMIMEHeaderKey (s : String) : String :=
  if s.data.all validHeaderFieldByte then String.mk (canonChars true s.data) else s

/-- Whitespace as trimmed by Go `strings.TrimSpace`: the ASCII space bytes
plus the Latin-1 white space characters. Further Unicode space runes are
irrelevant to header tokens and left out of the model. -/
def isGoSpace (c : Char) : Bool :=
  c.toNat ∈ [9, 10, 11, 12, 13, 32, 133, 160]

/-- Go `strings.TrimSpace`. -/
def trimSpaceGo (s : String) : String :=
  String.mk ((s.data.dropWhile isGoSpace).reverse.dropWhile isGoSpace).reverse

/-- Splitting of a character list at every comma (accumulator holds the
current field reversed). -/
def splitCommaAux : List Char → List Char → List (List Char)
  | [], acc => [acc.reverse]
  | c :: rest, acc =>
    if c = ',' then acc.reverse :: splitCommaAux rest []
    else splitCommaAux rest (c :: acc)

/-- Go `strings.Split(s, ",")`: the fields between commas (an empty string
yields one empty field). -/
def splitComma (s : String) : List String :=
  (splitCommaAux s.data []).map String.mk

/-- Go `http.Header`: a map from canonical header keys to lists of values,
modelled as an association list with at most one entry per key. -/
abbrev Header := List (String × List String)

/-- Direct map index `hdr[key]` (no canonicalisation), yielding the value
slice, or the zero value (empty list) when absent. -/
def headerIndex (hdr : Header) (key : String) : List String :=
  match hdr.find? (fun kv => kv.1 = key) with
  | some kv => kv.2
  | none => []

/-- Go `http.Header.Del(key)`: deletes the entry at the canonicalised key. -/
def headerDel (hdr : Header) (key : String) : Header :=
  hdr.filter (fun kv => kv.1 ≠ canonicalMIMEHeaderKey key)

/-- Go (package service): `delConnectionHeaders(hdr)` — for each value of
the `Connection` header, split by commas, trim whitespace, and delete every
header named by a non-empty token. -/
def delConnectionHeaders (hdr : Header) : Header :=
  let h := headerIndex hdr "Connection"
  h.foldl
    (fun acc v =>
      (splitComma v).foldl
        (fun acc2 tok =>
          let t := trimSpaceGo tok
          if t ≠ "" then headerDel acc2 t else acc2)
        acc)
    hdr

/-- The canonicalised non-empty trimmed tokens of all values of the
`Connection` header of a header map. -/
def connTokenKeys (hdr : Header) : List String :=
  (headerIndex hdr "Connection").flatMap
    (fun v =>
      (splitComma v).filterMap
        (fun tok =>
          let t := trimSpaceGo tok
          if t = "" then none else some (canonicalMIMEHeaderKey t)))

example : canonicalMIMEHeaderKey "keep-alive" = "Keep-Alive" := by decide
example : delConnectionHeaders
    [("Connection", ["Keep-Alive, x-custom "]), ("Keep-Alive", ["30"]), ("X-Custom", ["v"]), ("Other", ["v"])] =
    [("Connection", ["Keep-Alive, x-custom "]), ("Other", ["v"])] := by decide

/-- Digit-extraction core of the decimal conversion performed by Go
`strconv.Itoa` for non-negative values, structured on explicit fuel. -/
def itoaCore (b : Nat) : Nat → Nat → List Char → List Char
  | 0, _, ds => ds
  | fuel + 1, n, ds =>
    let d := Nat.digitChar (n % b)
    if n / b = 0 then d :: ds else itoaCore b fuel (n / b) (d :: ds)

/-- Go `strconv.Itoa` for a non-negative value: its decimal digit string. -/
def itoa (n : Nat) : String :=
  String.mk (itoaCore 10 (n + 1) n [])

/-- Go (package service): `writeErrToConn(dst, rerr)` — the bytes written to
the client connection. A nil error writes nothing; otherwise the literal 502
error line is written, with the Content-Length being the byte length of the
error message. The function returns the write error, which is not modelled:
the result here is the written byte string. -/
def writeErrToConn (rerr : Option String) : String :=
  match rerr with
  | none => ""
  | some errm =>
    "HTTP/1.1 502 Bad Gateway\r\nContent-Type: text/plain\r\nContent-Length: " ++
      itoa errm.utf8ByteSize ++ "\r\n\r\n" ++ errm

example : itoa 20 = "20" := by decide
example : writeErrToConn (some "something_went_wrong") =
    "HTTP/1.1 502 Bad Gateway\r\nContent-Type: text/plain\r\nContent-Length: 20\r\n\r\nsomething_went_wrong" := by
  decide

/-- Gate identifiers (`uuid.UUID`, identity-compared). -/
abbrev UUID := Nat

/-- Go `uuid.Nil`. -/
def uuidNil : UUID := 0

/-- A gate as far as the Set is concerned: identifier, kind, the state cell
value and the in-flight counter (the dialer and HTTP client play no role in
the Set logic). -/
structure GateRec where
  id : UUID
  kind : Kind
  st : GState
  nreq : Nat
deriving DecidableEq, Repr

/-- Go `model.Set` keyed by gate id, modelled as an association list with at
most one record per id. -/
abbrev GateMap := List GateRec

/-- Go `model.Set.Get`. -/
def mapGet (m : GateMap) (id : UUID) : Option GateRec :=
  m.find? (fun g => g.id = id)

/-- Go `model.Set.Set`: replace the record at the key, or append it. -/
def mapSet (m : GateMap) (g : GateRec) : GateMap :=
  if m.any (fun x => x.id = g.id) then
    m.map (fun x => if x.id = g.id then g else x)
  else m ++ [g]

/-- Go `model.Set.Remove`. -/
def mapRemove (m : GateMap) (id : UUID) : GateMap :=
  m.filter (fun g => g.id ≠ id)

/-- Go `gate.Set`: the shutting latch, the Direct gate, the two kind maps
and the `TorMax` bound from the configuration (the other configuration
fields parameterise timing, which the drain model treats via schedules). -/
structure GateSet where
  shutting : Bool
  drt : GateRec
  tgs : GateMap
  wgs : GateMap
  torMax : Nat
deriving DecidableEq, Repr

/-- Go `Set.byID`: the Direct gate by its id, else the Tor map, else the
WireGuard map, else `ErrGateNotFound`. -/
def GateSet.byID (s : GateSet) (id : UUID) : Except GoErr GateRec :=
  if id = s.drt.id then Except.ok s.drt
  else
    match mapGet s.tgs id with
    | some g => Except.ok g
    | none =>
      match mapGet s.wgs id with
      | some g => Except.ok g
      | none => Except.error GoErr.gateNotFound

/-- Go `Set.toState(gt, st)`: reset the in-flight counter, request the state
transition, and re-insert a Tor or WireGuard gate into its map (the Direct
gate is only mutated in place). Returns the error, the updated set and the
updated gate. -/
def GateSet.setToState (s : GateSet) (g : GateRec) (st : GState) : Option GoErr × GateSet × GateRec :=
  let g1 : GateRec := { g with nreq := 0, st := baseGate.toState st g.st }
  if g1.kind = KindDirect then (none, { s with drt := if s.drt.id = g1.id then g1 else s.drt }, g1)
  else if g1.kind = KindTor then (none, { s with tgs := mapSet s.tgs g1 }, g1)
  else if g1.kind = KindWireGuard then (none, { s with wgs := mapSet s.wgs g1 }, g1)
  else (some GoErr.kindUnknown, s, g1)

/-- How the drain loop of `Set.forState` ends: the shutting latch fires, the
counter reads zero, or the loop context is done (its deadline passed). The
payload is the in-flight counter at that instant. -/
inductive LoopEnd where
  | shuttingNow (n : Nat)
  | drained
  | ctxDone (n : Nat)
deriving DecidableEq, Repr

/-- The drain loop of `Set.forState`, driven by a schedule of per-iteration
observations of the shutting latch and the in-flight counter (the counter
moves concurrently with the loop). Each iteration first checks the latch,
then the counter, then waits for the next tick; when the schedule of ticks
is exhausted the loop context is done and the deadline branch is taken with
the counter at `nfin`. -/
def drainLoop : List (Bool × Nat) → Nat → LoopEnd
  | [], nfin => LoopEnd.ctxDone nfin
  | (sh, n) :: rest, nfin =>
    if sh then LoopEnd.shuttingNow n
    else if n = 0 then LoopEnd.drained
    else drainLoop rest nfin

/-- Go `Set.forState(ctx, gt, st)`: snapshot the state, request the
transition to the target, detach the gate from its kind map, then drain.
On success or on the shutting latch the gate stays detached; when the loop
context is done the gate is put back through `Set.toState` with the
snapshotted state and the context error (the deadline error) is returned. -/
def GateSet.forState (s : GateSet) (g : GateRec) (st : GState) (obs : List (Bool × Nat)) (nfin : Nat) :
    Option GoErr × GateSet × GateRec :=
  let origst := g.st
  let g1 : GateRec := { g with st := baseGate.toState st g.st }
  let s1 : GateSet :=
    if g1.kind = KindTor then { s with tgs := mapRemove s.tgs g1.id }
    else if g1.kind = KindWireGuard then { s with wgs := mapRemove s.wgs g1.id }
    else s
  match drainLoop obs nfin with
  | LoopEnd.shuttingNow n => (some GoErr.setIsShutting, s1, { g1 with nreq := n })
  | LoopEnd.drained => (none, s1, { g1 with nreq := 0 })
  | LoopEnd.ctxDone n =>
    let put := GateSet.setToState s1 { g1 with nreq := n } origst
    (some GoErr.deadlineExceeded, put.2.1, put.2.2)

/-- Go `Set.RefreshOne(ctx, id)`: reject the Direct id, look the gate up,
reject non-Tor kinds, drain into Maintenance, run the refresh (its outcome
is the `rres` parameter: `none` on success, the error otherwise), and
re-admit through `Set.toState(gt, stateReady)`. -/
def GateSet.refreshOne (s : GateSet) (id : UUID) (obs : List (Bool × Nat)) (nfin : Nat)
    (rres : Option GoErr) : Option GoErr × GateSet :=
  if id = s.drt.id then (some GoErr.kindNotSupported, s)
  else
    match GateSet.byID s id with
    | Except.error e => (some e, s)
    | Except.ok g =>
      if g.kind ≠ KindTor then (some GoErr.kindNotSupported, s)
      else
        match GateSet.forState s g GState.maintenance obs nfin with
        | (some e, s1, _) => (some e, s1)
        | (none, s1, g1) =>
          match rres with
          | some e => (some e, s1)
          | none =>
            let fin := GateSet.setToState s1 g1 GState.ready
            (fin.1, fin.2.1)

/-- Go `Set.New(ctx, kind)`: only Tor is supported; the shutting latch and
the `TorMax` cap are checked in that order; then the factory runs (its
outcome is the `factory` parameter) and a new gate is inserted keyed by its
id. Returns the new id (or `uuid.Nil`), the error and the updated set. -/
def GateSet.newGate (s : GateSet) (kind : Kind) (factory : Except GoErr GateRec) :
    (UUID × Option GoErr) × GateSet :=
  if kind ≠ KindTor then ((uuidNil, some GoErr.kindNotSupported), s)
  else if s.shutting then ((uuidNil, some GoErr.setIsShutting), s)
  else if s.torMax ≤ s.tgs.length then ((uuidNil, some GoErr.torMaxReached), s)
  else
    match factory with
    | Except.error e => ((uuidNil, some e), s)
    | Except.ok gt => ((gt.id, none), { s with tgs := mapSet s.tgs gt })

/-- Go `Set.Shutdown(ctx)`: its effect on the admission state — the first
invocation closes the shutting latch (the concurrent closing of the gates
does not touch the latch or the maps). -/
def GateSet.shutdown (s : GateSet) : GateSet :=
  { s with shutting := true }

/-- A sequence of `New` calls, each with its requested kind and its factory
outcome, applied to a set. -/
def runNews (l : List (Kind × Except GoErr GateRec)) (s : GateSet) : GateSet :=
  l.foldl (fun cur p => (GateSet.newGate cur p.1 p.2).2) s

example :
    (GateSet.forState
      { shutting := false, drt := { id := 9, kind := KindDirect, st := GState.ready, nreq := 0 },
        tgs := [{ id := 1, kind := KindTor, st := GState.ready, nreq := 1 }], wgs := [], torMax := 8 }
      { id := 1, kind := KindTor, st := GState.ready, nreq := 1 }
      GState.maintenance [(false, 1)] 1).1 = some GoErr.deadlineExceeded := by decide

/-- Go `errors.Is` on the sentinel errors involved in the handler mapping:
all of them are identity-compared values (none of the errors reaching the
switches is a wrapped chain). -/
def errorsIs (e target : GoErr) : Bool := e = target

/-- Go `handler.Proxy.List`: the status code chosen for an error returned by
the `Gates` service call. -/
def proxyListStatus (e : GoErr) : Nat :=
  if errorsIs e GoErr.canceled then 499
  else if errorsIs e GoErr.kindUnknown then 400
  else 500

/-- Go `handler.Proxy.Create`: the status code chosen for an error returned
by the `Create` service call. -/
def proxyCreateStatus (e : GoErr) : Nat :=
  if errorsIs e GoErr.canceled then 499
  else if errorsIs e GoErr.setIsShutting then 502
  else if errorsIs e GoErr.kindNotSupported then 422
  else if errorsIs e GoErr.torMaxReached then 409
  else 500

/-- Go `handler.Proxy.Refresh`: the status code chosen for an error returned
by the `Refresh` service call. -/
def proxyRefreshStatus (e : GoErr) : Nat :=
  if errorsIs e GoErr.canceled then 499
  else if errorsIs e GoErr.deadlineExceeded then 504
  else if errorsIs e GoErr.setIsShutting then 502
  else if errorsIs e GoErr.gateNotFound then 404
  else if errorsIs e GoErr.kindNotSupported then 422
  else if errorsIs e GoErr.gateIsRefreshing then 409
  else 500

/-- Go `handler.Proxy.Stop`: the status code chosen for an error returned by
the `Stop` service call. -/
def proxyStopStatus (e : GoErr) : Nat :=
  if errorsIs e GoErr.canceled then 499
  else if errorsIs e GoErr.deadlineExceeded then 504
  else if errorsIs e GoErr.setIsShutting then 502
  else if errorsIs e GoErr.gateNotFound then 404
  else if errorsIs e GoErr.kindNotSupported then 422
  else 500

/-- Modelled from the spec (§6.2): the single table of core errors to HTTP
status codes which "implementations MUST reproduce exactly". -/
def specStatusTable (e : GoErr) : Nat :=
  if e = GoErr.canceled then 499
  else if e = GoErr.deadlineExceeded then 504
  else if e = GoErr.kindUnknown then 400
  else if e = GoErr.kindNotSupported then 422
  else if e = GoErr.setIsShutting then 502
  else if e = GoErr.torMaxReached then 409
  else if e = GoErr.gateNotFound then 404
  else if e = GoErr.gateIsRefreshing then 409
  else if e = GoErr.invalidParam ∨ e = GoErr.invalidUUID then 400
  else 500

example : proxyRefreshStatus GoErr.deadlineExceeded = 504 := by decide
example : proxyCreateStatus GoErr.deadlineExceeded = 500 := by decide

/-- C9: for every supported kind k, `ParseKind (k.String())` returns `(k, nil)`;
parsing "unknown" or any unrecognised string returns `KindUnknown` together
with the `ErrKindUnknown` error. -/
theorem parseKind_roundtrip :
    (ParseKind (Kind.toGoString KindDirect) = (KindDirect, none) ∧
      ParseKind (Kind.toGoString KindTor) = (KindTor, none) ∧
      ParseKind (Kind.toGoString KindWireGuard) = (KindWireGuard, none)) ∧
    ParseKind "unknown" = (KindUnknown, some GoErr.kindUnknown) ∧
    (∀ s : String, s ≠ KindDirect → s ≠ KindTor → s ≠ KindWireGuard →
      ParseKind s = (KindUnknown, some GoErr.kindUnknown)) := by
  refine ⟨⟨by decide, by decide, by decide⟩, by decide, ?_⟩
  intro s h1 h2 h3
  simp [ParseKind, h1, h2, h3]

/-- Witness for C9: the unrecognised-string branch at a concrete input. -/
theorem parseKind_roundtrip_witness :
    ParseKind "bogus" = (KindUnknown, some GoErr.kindUnknown) :=
  parseKind_roundtrip.2.2 "bogus" (by decide) (by decide) (by decide)

/-- C10: `MarshalJSON` succeeds for all four kinds (KindUnknown marshals to
the JSON string "unknown") and fails with `ErrKindUnknown` for any other
value; `UnmarshalJSON` of the JSON string "unknown" fails with the
`ErrKindUnknown` error; hence unmarshal∘marshal is the identity exactly on
{Direct, Tor, WireGuard} and fails on KindUnknown. -/
theorem kind_json_roundtrip :
    (Kind.marshalJSON KindUnknown = Except.ok "\"unknown\"" ∧
      Kind.marshalJSON KindDirect = Except.ok "\"direct\"" ∧
      Kind.marshalJSON KindTor = Except.ok "\"tor\"" ∧
      Kind.marshalJSON KindWireGuard = Except.ok "\"wireguard\"") ∧
    (∀ x : Kind, x ≠ KindUnknown → x ≠ KindDirect → x ≠ KindTor → x ≠ KindWireGuard →
      Kind.marshalJSON x = Except.error GoErr.kindUnknown) ∧
    Kind.unmarshalJSON "\"unknown\"" = Except.error GoErr.kindUnknown ∧
    (∀ k : Kind, k = KindDirect ∨ k = KindTor ∨ k = KindWireGuard →
      (Kind.marshalJSON k).bind Kind.unmarshalJSON = Except.ok k) ∧
    (Kind.marshalJSON KindUnknown).bind Kind.unmarshalJSON = Except.error GoErr.kindUnknown := by
  refine ⟨⟨rfl, rfl, rfl, rfl⟩, ?_, rfl, ?_, rfl⟩
  · intro x h1 h2 h3 h4
    simp [Kind.marshalJSON, h1, h2, h3, h4]
  · intro k h
    rcases h with h | h | h <;> subst h <;> rfl

/-- Witness for C10: the marshal-failure branch at a concrete value, and the
round trip at the Tor kind. -/
theorem kind_json_roundtrip_witness :
    Kind.marshalJSON "bogus" = Except.error GoErr.kindUnknown ∧
    (Kind.marshalJSON KindTor).bind Kind.unmarshalJSON = Except.ok KindTor :=
  ⟨kind_json_roundtrip.2.1 "bogus" (by decide) (by decide) (by decide) (by decide),
    kind_json_roundtrip.2.2.2.1 KindTor (Or.inr (Or.inl rfl))⟩

/-- C3: every transition request on a gate state cell either performs one of
the four legal transitions (when the current state is an allowed
predecessor of the requested target) or is a silent no-op; in particular
Closed is terminal under every request and every sequence of requests. -/
theorem gateState_legal_transitions :
    (∀ (s t : GState), baseGate.toState t s = if legalPair s t then t else s) ∧
    (∀ t : GState, baseGate.toState t GState.closed = GState.closed) ∧
    (∀ l : List GState, runTrans l GState.closed = GState.closed) := by
  refine ⟨?_, ?_, ?_⟩
  · intro s t
    cases s <;> cases t <;> decide
  · intro t
    cases t <;> decide
  · intro l
    induction l with
    | nil => rfl
    | cons t rest ih =>
      have h : baseGate.toState t GState.closed = GState.closed := by cases t <;> decide
      simp only [runTrans, List.foldl_cons, h]
      exact ih

/-- C5: the in-flight counter cannot underflow: `DidReq` saturates at zero
(`didReq 0 = 0`, and in general it computes the truncated predecessor), and
across any interleaving of `AddReq`/`DidReq` calls the counter never
exceeds the starting value plus the number of `AddReq` calls — so it never
wraps below zero. -/
theorem reqCounter_never_underflow :
    gateState.didReq 0 = 0 ∧
    (∀ n : Nat, gateState.didReq n = n - 1) ∧
    (∀ (l : List ReqOp) (n : Nat), runReqOps l n ≤ n + countAdds l) := by
  refine ⟨rfl, ?_, ?_⟩
  · intro n
    cases n <;> simp [gateState.didReq]
  · intro l
    induction l with
    | nil => intro n; simp [runReqOps, countAdds]
    | cons op rest ih =>
      intro n
      have hstep : applyReqOp n op ≤ n + (if op = ReqOp.add then 1 else 0) := by
        cases op <;> simp [applyReqOp, gateState.addReq, gateState.didReq]
        · exact le_trans (Nat.mod_le _ _) (le_refl _)
        · split <;> omega
      have hcount : countAdds (op :: rest) = (if op = ReqOp.add then 1 else 0) + countAdds rest := by
        cases op
        · simp [countAdds, List.filter]
          omega
        · simp [countAdds, List.filter]
      have hrun : runReqOps (op :: rest) n = runReqOps rest (applyReqOp n op) := by
        simp [runReqOps, List.foldl_cons]
      rw [hrun, hcount]
      exact le_trans (ih (applyReqOp n op)) (by omega)

/-- The digit-extraction core agrees with the one underlying `Nat.repr`. -/
theorem itoaCore_eq_toDigitsCore (fuel : Nat) :
    ∀ (n : Nat) (ds : List Char), itoaCore 10 fuel n ds = Nat.toDigitsCore 10 fuel n ds := by
  induction fuel with
  | zero => intro n ds; rfl
  | succ fuel ih =>
    intro n ds
    simp only [itoaCore, Nat.toDigitsCore]
    split
    · rfl
    · exact ih _ _

/-- The modelled `strconv.Itoa` produces the canonical decimal numeral. -/
theorem itoa_eq_repr (n : Nat) : itoa n = Nat.repr n := by
  simp only [itoa, Nat.repr, Nat.toDigits, List.asString, itoaCore_eq_toDigitsCore]

/-- C8: for a non-nil error with message m, the CONNECT pipeline error write
emits exactly the literal 502 line whose Content-Length is the decimal of
the byte length of m, followed by the blank line and m itself; a nil error
writes nothing. -/
theorem writeErrToConn_format :
    writeErrToConn none = "" ∧
    (∀ m : String,
      writeErrToConn (some m) =
        "HTTP/1.1 502 Bad Gateway\r\nContent-Type: text/plain\r\nContent-Length: " ++
          Nat.repr m.utf8ByteSize ++ "\r\n\r\n" ++ m) ∧
    writeErrToConn (some "something_went_wrong") =
      "HTTP/1.1 502 Bad Gateway\r\nContent-Type: text/plain\r\nContent-Length: 20\r\n\r\nsomething_went_wrong" := by
  refine ⟨rfl, ?_, by decide⟩
  intro m
  simp only [writeErrToConn, itoa_eq_repr]

/-- C7 counterexample: the Create handler does not reproduce the §6.2 table —
a context deadline error from the create operation is answered with 500,
while the table demands 504. -/
theorem proxyCreate_deadline_breaks_table :
    proxyCreateStatus GoErr.deadlineExceeded = 500 ∧
    specStatusTable GoErr.deadlineExceeded = 504 ∧
    proxyCreateStatus GoErr.deadlineExceeded ≠ specStatusTable GoErr.deadlineExceeded := by
  decide

/-- C7 amended: each management handler reproduces the §6.2 table exactly on
the errors its switch distinguishes — List on {cancel, KindUnknown}, Create
on {cancel, SetIsShutting, KindNotSupported, TorMaxReached}, Refresh on
{cancel, deadline, SetIsShutting, GateNotFound, KindNotSupported,
GateIsRefreshing}, Stop on the same set minus GateIsRefreshing — and maps
every other error, including a deadline error reaching List or Create, to
500. -/
theorem proxyStatus_amended :
    ∀ e : GoErr,
      proxyListStatus e =
        (if e = GoErr.canceled ∨ e = GoErr.kindUnknown then specStatusTable e else 500) ∧
      proxyCreateStatus e =
        (if e = GoErr.canceled ∨ e = GoErr.setIsShutting ∨ e = GoErr.kindNotSupported ∨
            e = GoErr.torMaxReached then specStatusTable e else 500) ∧
      proxyRefreshStatus e =
        (if e = GoErr.canceled ∨ e = GoErr.deadlineExceeded ∨ e = GoErr.setIsShutting ∨
            e = GoErr.gateNotFound ∨ e = GoErr.kindNotSupported ∨ e = GoErr.gateIsRefreshing then
          specStatusTable e else 500) ∧
      proxyStopStatus e =
        (if e = GoErr.canceled ∨ e = GoErr.deadlineExceeded ∨ e = GoErr.setIsShutting ∨
            e = GoErr.gateNotFound ∨ e = GoErr.kindNotSupported then specStatusTable e else 500) := by
  intro e
  cases e <;>
    simp [proxyListStatus, proxyCreateStatus, proxyRefreshStatus, proxyStopStatus,
      specStatusTable, errorsIs]

/-- The loop body of `delConnectionHeaders` for one comma-separated token:
trim it and delete the named header when the token is non-empty. -/
def delTokenStep (acc2 : Header) (tok : String) : Header :=
  let t := trimSpaceGo tok
  if t ≠ "" then headerDel acc2 t else acc2

/-- The non-empty trimmed form of one comma-separated token, if any. -/
def connTokenOf (tok : String) : Option String :=
  if trimSpaceGo tok = "" then none else some (trimSpaceGo tok)

/-- The non-empty trimmed `Connection` tokens of a header map, before
canonicalisation (`headerDel` canonicalises when deleting). -/
def rawConnTokens (hdr : Header) : List String :=
  (headerIndex hdr "Connection").flatMap (fun v => (splitComma v).filterMap connTokenOf)

/-- Folding `headerDel` over a list of keys keeps exactly the entries whose
key differs from every canonicalised deleted key. -/
theorem foldl_headerDel_eq_filter (keys : List String) :
    ∀ hdr : Header,
      keys.foldl headerDel hdr =
        hdr.filter (fun kv => keys.all (fun k => kv.1 ≠ canonicalMIMEHeaderKey k)) := by
  induction keys with
  | nil => intro hdr; simp
  | cons k rest ih =>
    intro hdr
    simp only [List.foldl_cons, ih, headerDel, List.filter_filter, List.all_cons]
    apply List.filter_congr
    intro kv _
    cases h1 : decide (kv.1 ≠ canonicalMIMEHeaderKey k) <;>
      cases h2 : rest.all (fun k => kv.1 ≠ canonicalMIMEHeaderKey k) <;>
      simp_all

/-- The inner token loop of `delConnectionHeaders` is the fold of
`headerDel` over the non-empty trimmed tokens of one value. -/
theorem innerTokenFold_eq (parts : List String) :
    ∀ acc : Header,
      parts.foldl delTokenStep acc = (parts.filterMap connTokenOf).foldl headerDel acc := by
  induction parts with
  | nil => intro acc; rfl
  | cons p rest ih =>
    intro acc
    by_cases h : trimSpaceGo p = ""
    · simp [List.foldl_cons, List.filterMap_cons, delTokenStep, connTokenOf, h, ih]
    · simp [List.foldl_cons, List.filterMap_cons, delTokenStep, connTokenOf, h, ih]

/-- The outer value loop of `delConnectionHeaders` is the fold of
`headerDel` over all the non-empty trimmed tokens of all values. -/
theorem outerValueFold_eq (vals : List String) :
    ∀ acc : Header,
      vals.foldl (fun acc0 v => (splitComma v).foldl delTokenStep acc0) acc =
        (vals.flatMap (fun v => (splitComma v).filterMap connTokenOf)).foldl headerDel acc := by
  induction vals with
  | nil => intro acc; rfl
  | cons v rest ih =>
    intro acc
    simp only [List.foldl_cons]
    rw [ih, innerTokenFold_eq, List.flatMap_cons, List.foldl_append]

/-- C6 counterexample: a `Connection` value may name the `Connection` header
itself as a token, in which case the Connection-listed stripping step does
delete the `Connection` header — the input below loses both entries,
including `Connection`. -/
theorem delConnectionHeaders_deletes_connection_itself :
    delConnectionHeaders [("Connection", ["close, connection"]), ("Close", ["x"])] = [] ∧
    headerIndex [("Connection", ["close, connection"]), ("Close", ["x"])] "Connection" =
      ["close, connection"] := by
  decide

/-- C6 amended: the Connection-listed stripping step keeps exactly the
headers whose key differs from every canonicalised non-empty trimmed token
of the (snapshotted) `Connection` values — equivalently, it deletes exactly
the headers named by such a token, the `Connection` header itself included
when one of its own tokens names it. -/
theorem delConnectionHeaders_amended :
    ∀ hdr : Header,
      delConnectionHeaders hdr =
        hdr.filter (fun kv => (connTokenKeys hdr).all (fun t => kv.1 ≠ t)) := by
  intro hdr
  have h0 : delConnectionHeaders hdr =
      (headerIndex hdr "Connection").foldl (fun acc0 v => (splitComma v).foldl delTokenStep acc0) hdr :=
    rfl
  have h1 : delConnectionHeaders hdr = (rawConnTokens hdr).foldl headerDel hdr := by
    rw [h0, outerValueFold_eq]
    rfl
  have h2 : connTokenKeys hdr = (rawConnTokens hdr).map canonicalMIMEHeaderKey := by
    simp only [connTokenKeys, rawConnTokens, List.map_flatMap, List.map_filterMap]
    congr 1
    funext v
    congr 1
    funext tok
    by_cases h : trimSpaceGo tok = "" <;> simp [connTokenOf, h]
  rw [h1, foldl_headerDel_eq_filter, h2]
  apply List.filter_congr
  intro kv _
  simp only [List.all_map]
  rfl

/-- Inserting into a gate map grows it by at most one entry. -/
theorem mapSet_length_le (m : GateMap) (g : GateRec) : (mapSet m g).length ≤ m.length + 1 := by
  simp only [mapSet]
  split
  · simp
  · simp

/-- `New` never changes the configured `TorMax`. -/
theorem newGate_torMax (s : GateSet) (k : Kind) (f : Except GoErr GateRec) :
    ((GateSet.newGate s k f).2).torMax = s.torMax := by
  simp only [GateSet.newGate]
  split_ifs
  · rfl
  · rfl
  · rfl
  · cases f <;> rfl

/-- `New` never changes the shutting latch. -/
theorem newGate_shutting (s : GateSet) (k : Kind) (f : Except GoErr GateRec) :
    ((GateSet.newGate s k f).2).shutting = s.shutting := by
  simp only [GateSet.newGate]
  split_ifs
  · rfl
  · rfl
  · rfl
  · cases f <;> rfl

/-- One `New` call preserves the Tor-map cap. -/
theorem newGate_cap_step (s : GateSet) (k : Kind) (f : Except GoErr GateRec)
    (h : s.tgs.length ≤ s.torMax) :
    ((GateSet.newGate s k f).2).tgs.length ≤ s.torMax := by
  simp only [GateSet.newGate]
  split_ifs with h1 h2 h3
  · exact h
  · exact h
  · exact h
  · cases f with
    | error e => exact h
    | ok g =>
      have hlen := mapSet_length_le s.tgs g
      simp only
      omega

/-- `TorMax` is invariant under any sequence of `New` calls. -/
theorem runNews_torMax (l : List (Kind × Except GoErr GateRec)) :
    ∀ s : GateSet, (runNews l s).torMax = s.torMax := by
  induction l with
  | nil => intro s; rfl
  | cons p rest ih =>
    intro s
    simp only [runNews, List.foldl_cons]
    rw [show List.foldl (fun cur p => (GateSet.newGate cur p.1 p.2).2) (GateSet.newGate s p.1 p.2).2 rest =
      runNews rest (GateSet.newGate s p.1 p.2).2 from rfl, ih, newGate_torMax]

/-- The shutting latch is invariant under any sequence of `New` calls. -/
theorem runNews_shutting (l : List (Kind × Except GoErr GateRec)) :
    ∀ s : GateSet, (runNews l s).shutting = s.shutting := by
  induction l with
  | nil => intro s; rfl
  | cons p rest ih =>
    intro s
    simp only [runNews, List.foldl_cons]
    rw [show List.foldl (fun cur p => (GateSet.newGate cur p.1 p.2).2) (GateSet.newGate s p.1 p.2).2 rest =
      runNews rest (GateSet.newGate s p.1 p.2).2 from rfl, ih, newGate_shutting]

/-- The Tor-map cap is preserved by any sequence of `New` calls. -/
theorem runNews_cap (l : List (Kind × Except GoErr GateRec)) :
    ∀ s : GateSet, s.tgs.length ≤ s.torMax → (runNews l s).tgs.length ≤ s.torMax := by
  induction l with
  | nil => intro s h; exact h
  | cons p rest ih =>
    intro s h
    simp only [runNews, List.foldl_cons]
    have hstep := newGate_cap_step s p.1 p.2 h
    have hmax := newGate_torMax s p.1 p.2
    have := ih (GateSet.newGate s p.1 p.2).2 (by rw [hmax]; exact hstep)
    rw [show List.foldl (fun cur p => (GateSet.newGate cur p.1 p.2).2) (GateSet.newGate s p.1 p.2).2 rest =
      runNews rest (GateSet.newGate s p.1 p.2).2 from rfl]
    omega

/-- C4: `New(ctx, kind)` evaluates its admission rules in order — non-Tor
kinds are rejected with `KindNotSupported` even when shutting, then the
shutting latch yields `SetIsShutting`, then the `TorMax` cap yields
`TorMaxReached`, then a factory error is propagated, and on factory success
the gate is inserted keyed by its id and that id is returned. Consequently
the Tor map never outgrows `TorMax` under any sequence of `New` calls, and
after `Shutdown` every `New(ctx, Tor)` returns `SetIsShutting`. -/
theorem newGate_admission :
    (∀ (s : GateSet) (k : Kind) (f : Except GoErr GateRec), k ≠ KindTor →
      GateSet.newGate s k f = ((uuidNil, some GoErr.kindNotSupported), s)) ∧
    (∀ (s : GateSet) (f : Except GoErr GateRec), s.shutting = true →
      GateSet.newGate s KindTor f = ((uuidNil, some GoErr.setIsShutting), s)) ∧
    (∀ (s : GateSet) (f : Except GoErr GateRec), s.shutting = false →
      s.torMax ≤ s.tgs.length →
      GateSet.newGate s KindTor f = ((uuidNil, some GoErr.torMaxReached), s)) ∧
    (∀ (s : GateSet) (e : GoErr), s.shutting = false → s.tgs.length < s.torMax →
      GateSet.newGate s KindTor (Except.error e) = ((uuidNil, some e), s)) ∧
    (∀ (s : GateSet) (g : GateRec), s.shutting = false → s.tgs.length < s.torMax →
      GateSet.newGate s KindTor (Except.ok g) =
        ((g.id, none), { s with tgs := mapSet s.tgs g })) ∧
    (∀ (s : GateSet) (l : List (Kind × Except GoErr GateRec)),
      s.tgs.length ≤ s.torMax → (runNews l s).tgs.length ≤ s.torMax) ∧
    (∀ (s : GateSet) (l : List (Kind × Except GoErr GateRec)) (f : Except GoErr GateRec),
      (GateSet.newGate (runNews l (GateSet.shutdown s)) KindTor f).1 =
        (uuidNil, some GoErr.setIsShutting)) := by
  refine ⟨?_, ?_, ?_, ?_, ?_, ?_, ?_⟩
  · intro s k f h
    simp [GateSet.newGate, h]
  · intro s f h
    simp [GateSet.newGate, h]
  · intro s f h1 h2
    simp [GateSet.newGate, h1, h2]
  · intro s e h1 h2
    simp [GateSet.newGate, h1, Nat.not_le.mpr h2]
  · intro s g h1 h2
    simp [GateSet.newGate, h1, Nat.not_le.mpr h2]
  · intro s l h
    exact runNews_cap l s h
  · intro s l f
    have hsh : (runNews l (GateSet.shutdown s)).shutting = true := by
      rw [runNews_shutting]
      rfl
    simp [GateSet.newGate, hsh]

/-- A concrete Direct gate for the C4 witness. -/
def c4Drt : GateRec := { id := 9, kind := KindDirect, st := GState.ready, nreq := 0 }

/-- A concrete one-slot set for the C4 witness. -/
def c4Set : GateSet := { shutting := false, drt := c4Drt, tgs := [], wgs := [], torMax := 1 }

/-- A concrete Tor gate for the C4 witness. -/
def c4Tor : GateRec := { id := 1, kind := KindTor, st := GState.ready, nreq := 0 }

/-- Witness for C4: every admission rule exercised at concrete inputs. -/
theorem newGate_admission_witness :
    GateSet.newGate c4Set KindDirect (Except.ok c4Tor) =
      ((uuidNil, some GoErr.kindNotSupported), c4Set) ∧
    GateSet.newGate (GateSet.shutdown c4Set) KindTor (Except.ok c4Tor) =
      ((uuidNil, some GoErr.setIsShutting), GateSet.shutdown c4Set) ∧
    GateSet.newGate { c4Set with tgs := [c4Tor] } KindTor (Except.ok c4Tor) =
      ((uuidNil, some GoErr.torMaxReached), { c4Set with tgs := [c4Tor] }) ∧
    GateSet.newGate c4Set KindTor (Except.error (GoErr.other "boom")) =
      ((uuidNil, some (GoErr.other "boom")), c4Set) ∧
    GateSet.newGate c4Set KindTor (Except.ok c4Tor) =
      ((1, none), { c4Set with tgs := mapSet c4Set.tgs c4Tor }) ∧
    (runNews [(KindTor, Except.ok c4Tor), (KindTor, Except.ok c4Tor)] c4Set).tgs.length ≤ 1 := by
  refine ⟨?_, ?_, ?_, ?_, ?_, ?_⟩
  · exact newGate_admission.1 c4Set KindDirect (Except.ok c4Tor) (by decide)
  · exact newGate_admission.2.1 (GateSet.shutdown c4Set) (Except.ok c4Tor) (by decide)
  · exact newGate_admission.2.2.1 { c4Set with tgs := [c4Tor] } (Except.ok c4Tor) (by decide) (by decide)
  · exact newGate_admission.2.2.2.1 c4Set (GoErr.other "boom") (by decide) (by decide)
  · exact newGate_admission.2.2.2.2.1 c4Set c4Tor (by decide) (by decide)
  · exact newGate_admission.2.2.2.2.2.1 c4Set [(KindTor, Except.ok c4Tor), (KindTor, Except.ok c4Tor)] (by decide)

/-- Replacing the record at a key in a gate map makes lookup at that key
return the replacement exactly when the key was present. -/
theorem mapGet_map_replace (g : GateRec) :
    ∀ m : GateMap,
      mapGet (m.map (fun x => if x.id = g.id then g else x)) g.id =
        (mapGet m g.id).map (fun _ => g) := by
  intro m
  induction m with
  | nil => rfl
  | cons x rest ih =>
    by_cases hx : x.id = g.id
    · simp [mapGet, List.find?_cons, hx]
    · simp only [List.map_cons, if_neg hx, mapGet, List.find?_cons] at ih ⊢
      rw [decide_eq_false hx]
      exact ih

/-- After `model.Set.Set(g.id, g)`, looking the id up returns `g`. -/
theorem mapGet_mapSet_self (m : GateMap) (g : GateRec) :
    mapGet (mapSet m g) g.id = some g := by
  simp only [mapSet]
  by_cases h : m.any (fun x => x.id = g.id) = true
  · rw [if_pos h, mapGet_map_replace]
    rw [List.any_eq_true] at h
    obtain ⟨x, hx, hid⟩ := h
    have hid2 : x.id = g.id := by simpa using hid
    have hsome : (mapGet m g.id).isSome := by
      simp only [mapGet]
      exact List.find?_isSome.mpr ⟨x, hx, by simp [hid2]⟩
    cases hy : mapGet m g.id with
    | none => rw [hy] at hsome; simp at hsome
    | some y => rfl
  · rw [if_neg h]
    have hall : ∀ x ∈ m, ¬ x.id = g.id := by
      intro x hx
      by_contra hid
      exact h (List.any_eq_true.mpr ⟨x, hx, by simp [hid]⟩)
    have hnone : mapGet m g.id = none := by
      simp only [mapGet]
      apply List.find?_eq_none.mpr
      intro x hx
      simp [hall x hx]
    simp only [mapGet, List.find?_append] at hnone ⊢
    rw [hnone]
    simp

/-- C2 amended: for a Tor gate present in the Tor map in state Ready and
with in-flight requests, a `RefreshOne` whose drain loop ends by the loop
context deadline returns the deadline error, and afterwards the gate is
back in the Tor map in state Ready with its in-flight counter reset to
zero (the revert path also runs `toState`, which calls `resetReqs`). -/
theorem refreshOne_deadline_revert (s : GateSet) (g : GateRec) (obs : List (Bool × Nat))
    (nfin : Nat) (rres : Option GoErr)
    (hdrt : ¬ g.id = s.drt.id)
    (hmem : mapGet s.tgs g.id = some g)
    (hkind : g.kind = KindTor)
    (hst : g.st = GState.ready)
    (hloop : drainLoop obs nfin = LoopEnd.ctxDone nfin) :
    GateSet.refreshOne s g.id obs nfin rres =
      (some GoErr.deadlineExceeded,
        { s with tgs := mapSet (mapRemove s.tgs g.id) { g with st := GState.ready, nreq := 0 } }) ∧
    mapGet (GateSet.refreshOne s g.id obs nfin rres).2.tgs g.id =
      some { g with st := GState.ready, nreq := 0 } := by
  have hby : GateSet.byID s g.id = Except.ok g := by
    simp [GateSet.byID, hdrt, hmem]
  have hfs :
      GateSet.forState s g GState.maintenance obs nfin =
        (some GoErr.deadlineExceeded,
          { s with tgs := mapSet (mapRemove s.tgs g.id) { g with st := GState.ready, nreq := 0 } },
          { g with st := GState.ready, nreq := 0 }) := by
    simp [GateSet.forState, GateSet.setToState, hloop, hkind, hst, baseGate.toState,
      gateState.toMaint, gateState.toReady, KindTor, KindDirect]
  have hres :
      GateSet.refreshOne s g.id obs nfin rres =
        (some GoErr.deadlineExceeded,
          { s with tgs := mapSet (mapRemove s.tgs g.id) { g with st := GState.ready, nreq := 0 } }) := by
    simp [GateSet.refreshOne, hdrt, hby, hkind, hfs]
  refine ⟨hres, ?_⟩
  rw [hres]
  have := mapGet_mapSet_self (mapRemove s.tgs g.id) { g with st := GState.ready, nreq := 0 }
  simpa using this

/-- A concrete Direct gate for the C2 scenario. -/
def c2Drt : GateRec := { id := 9, kind := KindDirect, st := GState.ready, nreq := 0 }

/-- A concrete Tor gate with one in-flight request (`AddReq` called once). -/
def c2Gate : GateRec := { id := 1, kind := KindTor, st := GState.ready, nreq := 1 }

/-- A concrete set holding the Tor gate of the C2 scenario. -/
def c2Set : GateSet := { shutting := false, drt := c2Drt, tgs := [c2Gate], wgs := [], torMax := 8 }

/-- C2 counterexample: for a Tor gate with one in-flight request, a
`RefreshOne` whose drain loop ends by the loop deadline returns the
deadline error and leaves the gate in the Tor map in state Ready — but
with its in-flight counter reset to zero, not "unchanged and non-zero" as
claimed: the revert path also calls `resetReqs`. -/
theorem refreshOne_deadline_count_not_preserved :
    (GateSet.refreshOne c2Set 1 [(false, 1)] 1 none).1 = some GoErr.deadlineExceeded ∧
    mapGet (GateSet.refreshOne c2Set 1 [(false, 1)] 1 none).2.tgs 1 =
      some { id := 1, kind := KindTor, st := GState.ready, nreq := 0 } ∧
    ¬ mapGet (GateSet.refreshOne c2Set 1 [(false, 1)] 1 none).2.tgs 1 =
      some { id := 1, kind := KindTor, st := GState.ready, nreq := 1 } := by
  decide

/-- Witness for the amended C2 theorem at the concrete scenario gate. -/
theorem refreshOne_deadline_revert_witness :
    GateSet.refreshOne c2Set c2Gate.id [(false, 1)] 1 none =
      (some GoErr.deadlineExceeded,
        { c2Set with
          tgs := mapSet (mapRemove c2Set.tgs c2Gate.id) { c2Gate with st := GState.ready, nreq := 0 } }) ∧
    mapGet (GateSet.refreshOne c2Set c2Gate.id [(false, 1)] 1 none).2.tgs c2Gate.id =
      some { c2Gate with st := GState.ready, nreq := 0 } :=
  refreshOne_deadline_revert c2Set c2Gate [(false, 1)] 1 none (by decide) (by decide)
    (by decide) (by decide) (by decide)

/-- A concrete Direct gate for the C1 scenario. -/
def c1Drt : GateRec := { id := 9, kind := KindDirect, st := GState.ready, nreq := 0 }

/-- A concrete Ready Tor gate with one in-flight request. -/
def c1Gate : GateRec := { id := 1, kind := KindTor, st := GState.ready, nreq := 1 }

/-- A concrete set holding the Tor gate of the C1 scenario. -/
def c1Set : GateSet := { shutting := false, drt := c1Drt, tgs := [c1Gate], wgs := [], torMax := 8 }

/-- C1: evaluation of `forState` at the failing input — a Ready Tor gate
with one in-flight request, target state Closed (the `CloseOne` path),
drain loop ending by the loop context deadline. The call returns the
deadline error, resets the in-flight counter and puts the gate back into
the Tor map, but the gate's state stays Closed instead of being restored
to the snapshotted Ready: the revert runs through `toState`, whose guarded
CAS transitions cannot leave Closed. The claim (and spec invariant I1) is
violated by the code at this input. -/
theorem forState_closed_deadline_no_restore :
    (GateSet.forState c1Set c1Gate GState.closed [(false, 1)] 1).1 = some GoErr.deadlineExceeded ∧
    (GateSet.forState c1Set c1Gate GState.closed [(false, 1)] 1).2.2.nreq = 0 ∧
    mapGet (GateSet.forState c1Set c1Gate GState.closed [(false, 1)] 1).2.1.tgs c1Gate.id =
      some { id := 1, kind := KindTor, st := GState.closed, nreq := 0 } ∧
    c1Gate.st = GState.ready ∧
    (GateSet.forState c1Set c1Gate GState.closed [(false, 1)] 1).2.2.st = GState.closed ∧
    ¬ (GateSet.forState c1Set c1Gate GState.closed [(false, 1)] 1).2.2.st = c1Gate.st := by
  decide
